import Mathlib

set_option maxRecDepth 8192
set_option maxHeartbeats 1000000

/-!
Shallow embedding of the optical-power extraction engine of
LogProcessor.py (function extract_power_info and its regex catalog),
together with theorems checking the specification's claims about it.

Strings are processed as lists of characters.  Each regular expression of
the source is embedded as an executable matcher; re.search semantics
(leftmost match) is modelled by trying the position matcher at every
suffix from the left.  Numeric power readings are modelled as rationals:
all values occurring in the logs are plain decimals, on which Python
float arithmetic and comparison agree with exact rational arithmetic.
-/

namespace LogProcessor

abbrev Chars := List Char

/-- Lower-case one character; models the effect of re.IGNORECASE on the
ASCII text these patterns are applied to. -/
def lcChar (c : Char) : Char := c.toLower

/-- Python regex whitespace class, restricted to the characters occurring
in log lines. -/
def isWsChar (c : Char) : Bool :=
  c = ' ' || c = '\t' || c = '\n' || c = '\r' || c = '\x0b' || c = '\x0c'

def isDigitChar (c : Char) : Bool := '0' ≤ c && c ≤ '9'

def isAsciiAlpha (c : Char) : Bool := ('a' ≤ c && c ≤ 'z') || ('A' ≤ c && c ≤ 'Z')

/-- Python regex word character, restricted to ASCII as in the processed logs. -/
def isWordChar (c : Char) : Bool := isAsciiAlpha c || isDigitChar c || c = '_'

/-- str.strip: drop leading and trailing whitespace. -/
def stripChars (s : Chars) : Chars :=
  ((s.dropWhile isWsChar).reverse.dropWhile isWsChar).reverse

/-- Case-insensitive literal match at the current position, returning the rest. -/
def matchLit : Chars → Chars → Option Chars
  | [], s => some s
  | _ :: _, [] => none
  | l :: ls, c :: cs => if lcChar c = lcChar l then matchLit ls cs else none

/-- One literal character, case-insensitively. -/
def matchChar (c : Char) : Chars → Option Chars
  | c' :: cs => if lcChar c' = lcChar c then some cs else none
  | [] => none

/-- Whitespace-plus: at least one whitespace character, consumed greedily
(the following token of every pattern below never starts with whitespace,
so greedy consumption coincides with backtracking semantics). -/
def ws1 : Chars → Option Chars
  | c :: cs => if isWsChar c then some (cs.dropWhile isWsChar) else none
  | [] => none

/-- Whitespace-star. -/
def wsStar (s : Chars) : Chars := s.dropWhile isWsChar

/-- Leftmost search: try the position matcher at every suffix, left to right;
models re.search. -/
def searchPos (p : Chars → Option α) : Chars → Option α
  | [] => p []
  | c :: cs =>
    match p (c :: cs) with
    | some a => some a
    | none => searchPos p cs

/-- Case-sensitive substring test (the Python in operator on str). -/
def isSubstr (needle : Chars) : Chars → Bool
  | [] => needle.isEmpty
  | c :: cs => List.isPrefixOf needle (c :: cs) || isSubstr needle cs

def takeDigits (s : Chars) : Chars × Chars :=
  (s.takeWhile isDigitChar, s.dropWhile isDigitChar)

/-- The regex group -?\d+(?:\.\d+)? at the current position, greedily;
returns the captured characters and the rest. -/
def matchNumber (s : Chars) : Option (Chars × Chars) :=
  let signed : Chars × Chars :=
    match s with
    | '-' :: cs => (['-'], cs)
    | _ => ([], s)
  let ds := (takeDigits signed.2).1
  let r1 := (takeDigits signed.2).2
  if ds.isEmpty then none
  else
    match r1 with
    | '.' :: cs =>
      let fs := (takeDigits cs).1
      if fs.isEmpty then some (signed.1 ++ ds, r1)
      else some (signed.1 ++ ds ++ '.' :: fs, (takeDigits cs).2)
    | _ => some (signed.1 ++ ds, r1)

def natOfDigits (ds : Chars) : Nat :=
  ds.foldl (fun n c => n * 10 + (c.toNat - '0'.toNat)) 0

def ratOfUnsigned (cs : Chars) : Rat :=
  let ip := cs.takeWhile isDigitChar
  match cs.dropWhile isDigitChar with
  | '.' :: fs => mkRat (natOfDigits ip * 10 ^ fs.length + natOfDigits fs) (10 ^ fs.length)
  | _ => (natOfDigits ip : Rat)

/-- Numeric value of a matched -?\d+(?:\.\d+)? group; Python float() on such
a group never raises. -/
def ratOfNumChars : Chars → Rat
  | '-' :: cs => -(ratOfUnsigned cs)
  | cs => ratOfUnsigned cs

/-- Python float() on a free-form table column, for the plain decimal shapes
occurring in these tables: optional sign, digits with optional fraction, or
a bare fraction.  Any other string raises ValueError in the source, which the
scanner swallows; both outcomes are modelled as none. -/
def pyFloatCore (s : Chars) : Option Rat :=
  let ip := (takeDigits s).1
  match (takeDigits s).2 with
  | [] => if ip.isEmpty then none else some (natOfDigits ip)
  | '.' :: r2 =>
    let fp := (takeDigits r2).1
    if ((takeDigits r2).2).isEmpty && !(ip.isEmpty && fp.isEmpty) then
      some (mkRat (natOfDigits ip * 10 ^ fp.length + natOfDigits fp) (10 ^ fp.length))
    else none
  | _ => none

def pyFloat? (s : Chars) : Option Rat :=
  match stripChars s with
  | '-' :: r => (pyFloatCore r).map (fun v => -v)
  | '+' :: r => pyFloatCore r
  | r => pyFloatCore r

/-- re.split on two-or-more whitespace runs, fuel-structured for kernel
evaluation; fuel equal to the length of the input never runs out. -/
def consHead (c : Char) : List Chars → List Chars
  | [] => [[c]]
  | p :: ps => (c :: p) :: ps

def split2wsGo : Nat → Chars → List Chars
  | 0, rest => [rest]
  | _ + 1, [] => [[]]
  | fuel + 1, a :: cs =>
    if isWsChar a then
      match cs with
      | [] => [[a]]
      | b :: _ =>
        if isWsChar b then [] :: split2wsGo fuel (cs.dropWhile isWsChar)
        else consHead a (split2wsGo fuel cs)
    else consHead a (split2wsGo fuel cs)

/-- re.split(r'\s\x7b2,\x7d', s): split on runs of at least two whitespace
characters; single whitespace characters stay inside their piece. -/
def split2ws (s : Chars) : List Chars := split2wsGo s.length s

/-- Removal of cursor escape sequences and bell/backspace characters,
re.sub(r'\x1b\[\d+[A-Za-z]|[\x07\x08]', '', line); fuel-structured. -/
def cleanGo : Nat → Chars → Chars
  | 0, rest => rest
  | _ + 1, [] => []
  | fuel + 1, c :: cs =>
    if c = '\x07' ∨ c = '\x08' then cleanGo fuel cs
    else if c = '\x1b' then
      match cs with
      | '[' :: r =>
        let ds := r.takeWhile isDigitChar
        let r2 := r.dropWhile isDigitChar
        if ds.isEmpty then c :: cleanGo fuel cs
        else
          match r2 with
          | a :: r3 => if isAsciiAlpha a then cleanGo fuel r3 else c :: cleanGo fuel cs
          | [] => c :: cleanGo fuel cs
      | _ => c :: cleanGo fuel cs
    else c :: cleanGo fuel cs

def cleanChars (s : Chars) : Chars := cleanGo s.length s

/-! ## The pattern catalog of the source, one matcher per regex. -/

/-- NON_OPTICAL_RE: valid\s+only\s+(?:on|for)\s+optical\s+interface\.?
(the trailing optional dot cannot affect acceptance). -/
def nonOpticalAt (s : Chars) : Option Unit :=
  (matchLit "valid".data s).bind fun s1 =>
  (ws1 s1).bind fun s2 =>
  (matchLit "only".data s2).bind fun s3 =>
  (ws1 s3).bind fun s4 =>
  ((matchLit "on".data s4).orElse (fun _ => matchLit "for".data s4)).bind fun s5 =>
  (ws1 s5).bind fun s6 =>
  (matchLit "optical".data s6).bind fun s7 =>
  (ws1 s7).bind fun s8 =>
  (matchLit "interface".data s8).map fun _ => ()

def nonOpticalSearch (line : Chars) : Bool := (searchPos nonOpticalAt line).isSome

/-- ABSENT_RE: transceiver\s+(?:is\s+)?absent\.? -/
def absentAt (s : Chars) : Option Unit :=
  (matchLit "transceiver".data s).bind fun s1 =>
  (ws1 s1).bind fun s2 =>
  ((((matchLit "is".data s2).bind ws1).bind (matchLit "absent".data)).orElse
    (fun _ => matchLit "absent".data s2)).map fun _ => ()

def absentSearch (line : Chars) : Bool := (searchPos absentAt line).isSome

/-- NOT_SUPPORT_RE: transceiver\s+(?:does\s+not\s+support|not\s+supported|unsupported) -/
def notSupportAt (s : Chars) : Option Unit :=
  (matchLit "transceiver".data s).bind fun s1 =>
  (ws1 s1).bind fun s2 =>
  (((((matchLit "does".data s2).bind ws1).bind (matchLit "not".data)).bind ws1
        |>.bind (matchLit "support".data)).orElse
    (fun _ =>
      ((((matchLit "not".data s2).bind ws1).bind (matchLit "supported".data)).orElse
        (fun _ => matchLit "unsupported".data s2)))).map fun _ => ()

def notSupportSearch (line : Chars) : Bool := (searchPos notSupportAt line).isSome

/-- The \(\s*copper\s*\) tail of TRANSFER_DISTANCE_COPPER_RE. -/
def copperParen (s : Chars) : Option Chars :=
  (matchChar '(' s).bind fun s1 =>
  (matchLit "copper".data (wsStar s1)).bind fun s2 =>
  matchChar ')' (wsStar s2)

/-- TRANSFER_DISTANCE_COPPER_RE:
Transfer\s+Distance\(m\)\s*:\s*(?:\d+\s*)?\(\s*copper\s*\) -/
def copperAt (s : Chars) : Option Unit :=
  (matchLit "transfer".data s).bind fun s1 =>
  (ws1 s1).bind fun s2 =>
  (matchLit "distance(m)".data s2).bind fun s3 =>
  (matchChar ':' (wsStar s3)).bind fun s4 =>
  let s5 := wsStar s4
  let withDigits : Option Chars :=
    let ds := (takeDigits s5).1
    if ds.isEmpty then none else copperParen (wsStar (takeDigits s5).2)
  (withDigits.orElse (fun _ => copperParen s5)).map fun _ => ()

def copperSearch (line : Chars) : Bool := (searchPos copperAt line).isSome

/-- The trailing [A-Za-z0-9\/\-]* class of PORT_RE. -/
def portTailClass (c : Char) : Bool :=
  isAsciiAlpha c || isDigitChar c || c = '/' || c = '-'

/-- Greedy consumption of the (?:[\/\-]\d+)+ atom of PORT_RE (plus any digits
directly continuing a run), returning the consumed characters and the rest;
an empty first component means the atom failed to match once. -/
def repsAux : Chars → Chars × Chars
  | [] => ([], [])
  | c :: cs =>
    if isDigitChar c then (c :: (repsAux cs).1, (repsAux cs).2)
    else if c = '/' ∨ c = '-' then
      match cs with
      | d :: ds =>
        if isDigitChar d then (c :: d :: (repsAux ds).1, (repsAux ds).2)
        else ([], c :: cs)
      | [] => ([], [c])
    else ([], c :: cs)

/-- The capture group of PORT_RE at a position: [A-Za-z\-]+ then \d+ then
(?:[\/\-]\d+)+ then [A-Za-z0-9\/\-]*.  The (?:Ethernet)? atom is subsumed by
the greedy [A-Za-z\-]+ class in front of it; the (?:^|\s) anchor and the
optional Port/interface prefix are handled by the callers. -/
def portAt (s : Chars) : Option Chars :=
  let ls := s.takeWhile (fun c => isAsciiAlpha c || c = '-')
  let s1 := s.dropWhile (fun c => isAsciiAlpha c || c = '-')
  if ls.isEmpty then none
  else
    let ds := (takeDigits s1).1
    let s2 := (takeDigits s1).2
    if ds.isEmpty then none
    else
      let g := repsAux s2
      if g.1.isEmpty then none
      else some (ls ++ ds ++ g.1 ++ g.2.takeWhile portTailClass)

/-- The optional (?:Port\s+|interface\s+)? prefix of PORT_RE, alternatives in
the source's order, with full fallback on group failure. -/
def portPrefixed (s : Chars) : Option Chars :=
  ((((matchLit "port".data s).bind ws1).bind portAt).orElse fun _ =>
    (((matchLit "interface".data s).bind ws1).bind portAt)).orElse fun _ =>
  portAt s

def portSearchAux : Chars → Option Chars
  | [] => none
  | c :: cs =>
    if isWsChar c then
      match portPrefixed cs with
      | some g => some g
      | none => portSearchAux cs
    else portSearchAux cs

/-- PORT_RE.search on a stripped line: the (?:^|\s) anchor admits a match at
the start of the string or just after a whitespace character; leftmost wins. -/
def portSearch (line : Chars) : Option String :=
  match portPrefixed line with
  | some g => some (String.mk g)
  | none => (portSearchAux line).map String.mk

/-- The \s*[:=]?\s* glue and numeric capture shared by the key-value power
shapes. -/
def afterKeyNum (s : Chars) : Option Rat :=
  let s1 := wsStar s
  let s2 :=
    match s1 with
    | ':' :: r => r
    | '=' :: r => r
    | _ => s1
  (matchNumber (wsStar s2)).map fun cap => ratOfNumChars cap.1

/-- The optional (?:\s*\(dB[mM]\))? atom followed by the glue and number. -/
def dbmThenNum (s : Chars) : Option Rat :=
  ((((matchLit "(db".data (wsStar s)).bind (matchChar 'm')).bind
      (matchChar ')')).bind afterKeyNum).orElse fun _ => afterKeyNum s

/-- TX_POWER_RE / RX_POWER_RE at a position, parameterised by the key:
(?:Current\s+)?(?:KEY\s*Power|KeyPower)(?:\s*\(dB[mM]\))?\s*[:=]?\s*(number).
Under IGNORECASE the KeyPower alternative is the KEY\s*Power one with zero
whitespace, so one matcher covers both. -/
def powerKeyAt (key : Chars) (s : Chars) : Option Rat :=
  let core : Chars → Option Rat := fun t =>
    (matchLit key t).bind fun t1 =>
    (matchLit "power".data (wsStar t1)).bind dbmThenNum
  ((((matchLit "current".data s).bind ws1).bind core).orElse fun _ => core s)

def txPowerSearch (line : Chars) : Option Rat := searchPos (powerKeyAt "tx".data) line
def rxPowerSearch (line : Chars) : Option Rat := searchPos (powerKeyAt "rx".data) line

/-- H3C_TABLE_TX_RE / H3C_TABLE_RX_RE: KEY\s*power\s*\(dB[mM]\)\s*(number). -/
def h3cKeyAt (key : Chars) (s : Chars) : Option Rat :=
  (matchLit key s).bind fun s1 =>
  (matchLit "power".data (wsStar s1)).bind fun s2 =>
  ((((matchLit "(db".data (wsStar s2)).bind (matchChar 'm')).bind
      (matchChar ')'))).bind fun s3 =>
  (matchNumber (wsStar s3)).map fun cap => ratOfNumChars cap.1

def h3cTxSearch (line : Chars) : Option Rat := searchPos (h3cKeyAt "tx".data) line
def h3cRxSearch (line : Chars) : Option Rat := searchPos (h3cKeyAt "rx".data) line

/-- POWER_VALUE_RE: (TX|RX|Tx|Rx)\s*Power\s*[:=]?\s*(number); the boolean is
true when the first group, lower-cased, is tx. -/
def powerValueAt (s : Chars) : Option (Bool × Rat) :=
  match s with
  | a :: b :: r =>
    (if lcChar a = 't' ∧ lcChar b = 'x' then some true
     else if lcChar a = 'r' ∧ lcChar b = 'x' then some false
     else none).bind fun isTx =>
      ((matchLit "power".data (wsStar r)).bind afterKeyNum).map fun v => (isTx, v)
  | _ => none

def powerValueSearch (line : Chars) : Option (Bool × Rat) := searchPos powerValueAt line

/-- status\s+(normal|abnormal); the capture keeps the original characters, as
re.IGNORECASE reports the matched text, not a normalised form. -/
def statusAt (s : Chars) : Option Chars :=
  (matchLit "status".data s).bind fun s1 =>
  (ws1 s1).bind fun s2 =>
  if (matchLit "normal".data s2).isSome then some (s2.take 6)
  else if (matchLit "abnormal".data s2).isSome then some (s2.take 8)
  else none

def statusSearch (line : Chars) : Option Chars := searchPos statusAt line

/-- A \b boundary after a literal ending in a word character: end of input or
a non-word character. -/
def atWordBoundary : Chars → Bool
  | [] => true
  | c :: _ => !(isWordChar c)

def dispTransceiver (s : Chars) : Option Chars :=
  (((matchLit "display".data s).bind ws1).bind (matchLit "transceiver".data)).bind ws1

/-- HUAWEI_DIAG_CMD_RE and H3C_DIAG_CMD_RE (textually identical patterns):
display\s+transceiver\s+diagnosis\s+interface\b -/
def diagCmdAt (s : Chars) : Option Unit :=
  ((dispTransceiver s).bind fun s1 =>
    (((matchLit "diagnosis".data s1).bind ws1).bind (matchLit "interface".data))).bind
    fun s2 => if atWordBoundary s2 then some () else none

def diagCmdSearch (line : Chars) : Bool := (searchPos diagCmdAt line).isSome

/-- HUAWEI_DIAG_DETAIL_CMD_RE:
display\s+transceiver\s+diagnosis\s+interface\s+detail\b -/
def diagDetailCmdAt (s : Chars) : Option Unit :=
  (((dispTransceiver s).bind fun s1 =>
      (((matchLit "diagnosis".data s1).bind ws1).bind (matchLit "interface".data)).bind
        ws1).bind (matchLit "detail".data)).bind
    fun s2 => if atWordBoundary s2 then some () else none

def diagDetailCmdSearch (line : Chars) : Bool := (searchPos diagDetailCmdAt line).isSome

/-- HUAWEI_VERB_CMD_RE and H3C_VERB_CMD_RE: display\s+transceiver\s+verbose\b -/
def verbCmdAt (s : Chars) : Option Unit :=
  ((dispTransceiver s).bind (matchLit "verbose".data)).bind
    fun s2 => if atWordBoundary s2 then some () else none

def verbCmdSearch (line : Chars) : Bool := (searchPos verbCmdAt line).isSome

/-- ALL_TRANSCEIVER_CMD_RE: the diagnosis-interface and verbose commands
(without a boundary; the optional detail tail cannot affect acceptance) or
undo\s+screen-length\s+disable. -/
def allTransceiverAt (s : Chars) : Option Unit :=
  (((dispTransceiver s).bind fun s1 =>
      ((((matchLit "diagnosis".data s1).bind ws1).bind (matchLit "interface".data)).orElse
        (fun _ => matchLit "verbose".data s1))).orElse
    (fun _ =>
      ((((matchLit "undo".data s).bind ws1).bind (matchLit "screen-length".data)).bind
          ws1).bind (matchLit "disable".data))).map fun _ => ()

def allTransceiverSearch (line : Chars) : Bool := (searchPos allTransceiverAt line).isSome

/-- RE_CURRENT_DIAG, anchored at the start of the stripped line. -/
def currentDiagMatch (line : Chars) : Bool :=
  (matchLit "current diagnostic parameters:".data line).isSome

/-- RE_ALARM_THRESHOLDS, anchored at the start of the stripped line. -/
def alarmMatch (line : Chars) : Bool :=
  (matchLit "alarm thresholds:".data line).isSome

/-! ## Device-name patterns used by extract_power_info. -/

/-- The generic CLI-prompt pattern tried first: [\[<]([\w\-]+)[\]>] -/
def promptAt (s : Chars) : Option Chars :=
  match s with
  | c :: r =>
    if c = '[' ∨ c = '<' then
      let w := r.takeWhile (fun c => isWordChar c || c = '-')
      match r.dropWhile (fun c => isWordChar c || c = '-') with
      | d :: _ => if ¬w.isEmpty ∧ (d = ']' ∨ d = '>') then some w else none
      | [] => none
    else none
  | [] => none

/-- BRACKET_RE: [\[<](SD-(?:JN|JY)-[^\]>]+)[\]>]+ with IGNORECASE; the capture
keeps the original characters. -/
def bracketAt (s : Chars) : Option Chars :=
  match s with
  | c :: r =>
    if c = '[' ∨ c = '<' then
      if (matchLit "sd-".data r).isSome then
        let r1 := r.drop 3
        if (matchLit "jn".data r1).isSome ∨ (matchLit "jy".data r1).isSome then
          match r1.drop 2 with
          | '-' :: r3 =>
            let body := r3.takeWhile (fun c => ¬(c = ']' ∨ c = '>'))
            match r3.dropWhile (fun c => ¬(c = ']' ∨ c = '>')) with
            | d :: _ =>
              if ¬body.isEmpty ∧ (d = ']' ∨ d = '>') then
                some (r.take (3 + 2 + 1 + body.length))
              else none
            | [] => none
          | _ => none
        else none
      else none
    else none
  | [] => none

/-- DEVICE_NAME_RE / SYSTEM_NAME_RE: KEY\s+Name\s*:\s*(\S+) with IGNORECASE. -/
def fieldNameAt (key : Chars) (s : Chars) : Option Chars :=
  (matchLit key s).bind fun s1 =>
  (ws1 s1).bind fun s2 =>
  (matchLit "name".data s2).bind fun s3 =>
  (matchChar ':' (wsStar s3)).bind fun s4 =>
  let w := (wsStar s4).takeWhile (fun c => !isWsChar c)
  if w.isEmpty then none else some w

def deviceNameSearch (t : Chars) : Option Chars := searchPos (fieldNameAt "device".data) t
def systemNameSearch (t : Chars) : Option Chars := searchPos (fieldNameAt "system".data) t

/-- os.path.basename for the posix paths used by the tool. -/
def basename (fp : String) : String :=
  String.mk ((fp.data.reverse.takeWhile (fun c => ¬(c = '/'))).reverse)

/-- The device-identity cascade of extract_power_info (source lines 424-433):
generic bracket/angle prompt token, then BRACKET_RE, then Device Name, then
System Name, each over the control-sequence-cleaned joined text; otherwise
the file's base name.  It never fails. -/
def resolveDevice (fp : String) (lines : List String) : String :=
  let clean := List.intercalate ['\n'] (lines.map (fun l => cleanChars l.data))
  match searchPos promptAt clean with
  | some g => String.mk g
  | none =>
    match searchPos bracketAt clean with
    | some g => String.mk g
    | none =>
      match (deviceNameSearch clean).orElse (fun _ => systemNameSearch clean) with
      | some g => String.mk g
      | none => basename fp

/-! ## The Port-State Scanner. -/

/-- File-level context shared by every record emitted from one file. -/
structure Ctx where
  vendor : String
  networkType : String
  device : String
  logFileName : String
deriving DecidableEq

/-- The output record appended by save_port. -/
structure PortRecord where
  vendor : String
  networkType : String
  device : String
  port : String
  tx_power : Option Rat
  rx_power : Option Rat
  status : String
  command_type : String
  logFileName : String
deriving DecidableEq

/-- The scanner's mutable per-segment working state (the closed-over
variables of extract_power_info, source lines 455-464). -/
structure ScanState where
  current_port : Option String
  tx_power : Option Rat
  rx_power : Option Rat
  status : String
  is_optical_port : Bool
  command_type : String
  table_header_found : Bool
  rx_power_col_idx : Option Nat
  tx_power_col_idx : Option Nat
  parsing_power_data : Bool
deriving DecidableEq

/-- Per-segment initial state.  The source leaves parsing_power_data unbound
until first assigned; since it is never read, initialising it to false is
unobservable. -/
def initState : ScanState :=
  { current_port := none, tx_power := none, rx_power := none, status := "unknown",
    is_optical_port := false, command_type := "unknown", table_header_found := false,
    rx_power_col_idx := none, tx_power_col_idx := none, parsing_power_data := false }

/-- save_port (source lines 467-496): append a record when current_port is
truthy (a non-empty string) and the context carries information, then reset
every context variable; the reset values coincide with initState. -/
def savePort (ctx : Ctx) (s : ScanState) : Option PortRecord × ScanState :=
  let emitted : Option PortRecord :=
    match s.current_port with
    | some p =>
      if p ≠ "" ∧ (s.tx_power ≠ none ∨ s.rx_power ≠ none ∨ s.status ≠ "unknown") then
        some { vendor := ctx.vendor, networkType := ctx.networkType, device := ctx.device,
               port := p, tx_power := s.tx_power, rx_power := s.rx_power,
               status := s.status, command_type := s.command_type,
               logFileName := ctx.logFileName }
      else none
    | none => none
  (emitted, initState)

/-- Value Validator: a candidate is kept only inside [-50, 10]; otherwise the
previous value survives.  Every power-assignment site of the scanner funnels
through this definition. -/
def applyCandidate (prev : Option Rat) (m : Option Rat) : Option Rat :=
  match m with
  | some v => if -50 ≤ v ∧ v ≤ 10 then some v else prev
  | none => prev

/-- The table-row candidate at a recorded column index: present only when the
index was recorded, lies inside the row, and the column parses as a float
(a parse failure is swallowed in the source). -/
def colCandidate (columns : List Chars) (idx : Option Nat) : Option Rat :=
  match idx with
  | some i => if h : i < columns.length then pyFloat? (columns.get ⟨i, h⟩) else none
  | none => none

/-- The command-type classification at the top of the loop (source lines
500-512): an if/elif chain per vendor which never consumes the line.  Because
the diagnosis-interface pattern also matches detail lines, the detail branch
of the chain is unreachable, as in the source. -/
def updateCommandType (vendor : String) (ct : String) (line : Chars) : String :=
  if vendor = "Huawei" then
    if diagCmdSearch line then "huawei_diag"
    else if diagDetailCmdSearch line then "huawei_diag_detail"
    else if verbCmdSearch line then "huawei_verb"
    else ct
  else if vendor = "H3C" then
    if diagCmdSearch line then "h3c_diag"
    else if verbCmdSearch line then "h3c_verb"
    else ct
  else ct

/-- The fall-through tail of the loop body (source lines 607-697): the
TX/RX key-value shapes, the H3C-only shapes, the fill-only-if-absent
fallback shape, and the bare status token, evaluated on one line with no
early exit between them. -/
def keyValueStep (vendor : String) (s : ScanState) (line : Chars) : ScanState :=
  let tx1 := applyCandidate s.tx_power (txPowerSearch line)
  let rx1 := applyCandidate s.rx_power (rxPowerSearch line)
  let tx2 := if vendor = "H3C" then applyCandidate tx1 (h3cTxSearch line) else tx1
  let rx2 := if vendor = "H3C" then applyCandidate rx1 (h3cRxSearch line) else rx1
  let tx3 :=
    if tx2 = none then
      applyCandidate tx2
        (match powerValueSearch line with
         | some dv => if dv.1 then some dv.2 else none
         | none => none)
    else tx2
  let rx3 :=
    if rx2 = none then
      applyCandidate rx2
        (match powerValueSearch line with
         | some dv => if dv.1 then none else some dv.2
         | none => none)
    else rx2
  let st :=
    match statusSearch line with
    | some cap => String.mk cap
    | none => s.status
  { s with tx_power := tx3, rx_power := rx3, status := st }

/-- The branches of the loop body below the interface-name check (source
lines 525-697), none of which emits a record: the four status markers, the
non-optical skip, the diagnostic-block markers, the table header, the
pending table row, and the fall-through tail. -/
def nonPortStep (vendor : String) (s : ScanState) (line : Chars) : ScanState :=
  if nonOpticalSearch line then
    { s with status := "non_optical(非光口)", is_optical_port := false }
  else if absentSearch line then
    { s with status := "absent(无模块)", is_optical_port := false }
  else if notSupportSearch line then
    { s with status := "not_supported(不支持)", is_optical_port := false }
  else if s.current_port.isSome ∧ copperSearch line then
    { s with status := "copper_port(电口)", is_optical_port := false }
  else if ¬s.is_optical_port then s
  else if (vendor = "H3C" ∨ vendor = "Huawei") ∧ currentDiagMatch line then
    { s with parsing_power_data := true }
  else if (vendor = "H3C" ∨ vendor = "Huawei") ∧ alarmMatch line then
    { s with parsing_power_data := false, table_header_found := false }
  else if (vendor = "H3C" ∨ vendor = "Huawei") ∧ isSubstr "Temp.".data line ∧
      isSubstr "Voltage".data line ∧ isSubstr "RX power".data line ∧
      isSubstr "TX power".data line then
    let headers := split2ws (stripChars line)
    match headers.findIdx? (fun h => isSubstr "RX power".data h),
          headers.findIdx? (fun h => isSubstr "TX power".data h) with
    | some i, some j =>
      { s with table_header_found := true,
               rx_power_col_idx := some i, tx_power_col_idx := some j }
    | _, _ =>
      { s with table_header_found := true,
               rx_power_col_idx := none, tx_power_col_idx := none }
  else if s.table_header_found then
    let columns := split2ws (stripChars line)
    { s with
      rx_power := applyCandidate s.rx_power (colCandidate columns s.rx_power_col_idx),
      tx_power := applyCandidate s.tx_power (colCandidate columns s.tx_power_col_idx),
      table_header_found := false }
  else keyValueStep vendor s line

/-- One iteration of the per-line classification loop (source lines 498-697):
returns the record emitted by the flush on an interface-name line, if any,
together with the successor state.  The branch order is the source's:
command type (fall-through), port, the four status markers, the non-optical
skip, diagnostic-block markers, table header, pending table row, then the
fall-through power shapes and the bare status token. -/
def processLine (ctx : Ctx) (s0 : ScanState) (raw : String) : Option PortRecord × ScanState :=
  let line := stripChars raw.data
  let s : ScanState := { s0 with command_type := updateCommandType ctx.vendor s0.command_type line }
  match portSearch line with
  | some p =>
    let fl := savePort ctx s
    (fl.1, { fl.2 with current_port := some p, is_optical_port := true, status := "unknown" })
  | none => (none, nonPortStep ctx.vendor s line)

/-- The per-line loop over a segment, threading the state and collecting
emitted records. -/
def runLines (ctx : Ctx) : ScanState → List String → List PortRecord × ScanState
  | s, [] => ([], s)
  | s, l :: ls =>
    let st := processLine ctx s l
    let rest := runLines ctx st.2 ls
    (st.1.toList ++ rest.1, rest.2)

/-- Process one segment: the per-line loop followed by the single final
save_port (source line 700). -/
def processSegment (ctx : Ctx) (segment : List String) : List PortRecord :=
  let r := runLines ctx initState segment
  r.1 ++ (savePort ctx r.2).1.toList

/-- The command-line indices that bound the segments (source line 438). -/
def cmdLineIdxs (lines : List String) : List Nat :=
  (List.range lines.length).filter fun i => allTransceiverSearch (lines.getD i "").data

/-- extract_power_info: device resolution, segmentation at the command lines
(with end-of-file as the final boundary), and the per-segment scanner. -/
def extractPowerInfo (fp vendor networkType : String) (lines : List String) : List PortRecord :=
  let device := resolveDevice fp lines
  let ctx : Ctx := { vendor := vendor, networkType := networkType,
                     device := device, logFileName := basename fp }
  let idxs := cmdLineIdxs lines
  if idxs.isEmpty then []
  else
    let bounds := (idxs ++ [lines.length]).zip ((idxs ++ [lines.length]).tail)
    ((bounds.map (fun se => processSegment ctx ((lines.drop se.1).take (se.2 - se.1)))).flatten)

/-- An optional power value with the range invariant. -/
def powOk (o : Option Rat) : Prop := ∀ v, o = some v → -50 ≤ v ∧ v ≤ 10

/-! ## Helper lemmas about the Value Validator and the flush. -/

/-- The Value Validator either keeps the previous value or installs an
in-range candidate. -/
theorem applyCandidate_cases (prev m : Option Rat) :
    applyCandidate prev m = prev ∨
      ∃ v, m = some v ∧ (-50 ≤ v ∧ v ≤ 10) ∧ applyCandidate prev m = some v := by
  cases m with
  | none => exact Or.inl rfl
  | some v =>
    by_cases h : (-50 : Rat) ≤ v ∧ v ≤ 10
    · exact Or.inr ⟨v, rfl, h, by simp [applyCandidate, h]⟩
    · exact Or.inl (by simp [applyCandidate, h])

theorem powOk_none : powOk none := fun v h => by cases h

theorem powOk_applyCandidate {prev : Option Rat} (h : powOk prev) (m : Option Rat) :
    powOk (applyCandidate prev m) := by
  rcases applyCandidate_cases prev m with he | ⟨v, _, hr, he⟩
  · rw [he]; exact h
  · rw [he]; intro w hw; injection hw with hvw; exact hvw ▸ hr

/-- The flush always resets the context to the per-segment initial state. -/
theorem savePort_snd (ctx : Ctx) (s : ScanState) : (savePort ctx s).2 = initState := rfl

/-- The flush emits iff the context is truthy and informative. -/
theorem savePort_isSome_iff (ctx : Ctx) (s : ScanState) :
    (savePort ctx s).1.isSome ↔
      ((∃ p, s.current_port = some p ∧ p ≠ "") ∧
        (s.tx_power ≠ none ∨ s.rx_power ≠ none ∨ s.status ≠ "unknown")) := by
  unfold savePort
  cases hc : s.current_port with
  | none => simp [hc]
  | some p =>
    dsimp only
    by_cases h : p ≠ "" ∧ (s.tx_power ≠ none ∨ s.rx_power ≠ none ∨ s.status ≠ "unknown")
    · rw [if_pos h]
      simp only [Option.isSome_some, true_iff]
      exact ⟨⟨p, rfl, h.1⟩, h.2⟩
    · rw [if_neg h]
      simp only [Option.isSome_none, Bool.false_eq_true, false_iff]
      rintro ⟨⟨q, hq, hq2⟩, hinfo⟩
      injection hq with e
      exact h ⟨e ▸ hq2, hinfo⟩

/-- Fields of a record emitted by the flush come from the flushed context. -/
theorem savePort_rec_fields (ctx : Ctx) (s : ScanState) :
    ∀ r, (savePort ctx s).1 = some r →
      s.current_port = some r.port ∧ r.tx_power = s.tx_power ∧
      r.rx_power = s.rx_power ∧ r.status = s.status ∧ r.command_type = s.command_type := by
  intro r h
  unfold savePort at h
  cases hc : s.current_port with
  | none => rw [hc] at h; cases h
  | some p =>
    rw [hc] at h
    dsimp only at h
    by_cases hcond : p ≠ "" ∧ (s.tx_power ≠ none ∨ s.rx_power ≠ none ∨ s.status ≠ "unknown")
    · rw [if_pos hcond] at h
      injection h with e
      subst e
      exact ⟨rfl, rfl, rfl, rfl, rfl⟩
    · rw [if_neg hcond] at h
      cases h

theorem powOk_ite {c : Prop} [Decidable c] {a b : Option Rat}
    (ha : powOk a) (hb : powOk b) : powOk (if c then a else b) := by
  split
  · exact ha
  · exact hb

/-- Reduction of the interface-name branch of the loop body. -/
theorem processLine_port_eq (ctx : Ctx) (s : ScanState) (raw : String) (p : String)
    (hp : portSearch (stripChars raw.data) = some p) :
    processLine ctx s raw =
      ((savePort ctx { s with command_type := updateCommandType ctx.vendor s.command_type (stripChars raw.data) }).1,
        { initState with current_port := some p, is_optical_port := true, status := "unknown" }) := by
  unfold processLine
  simp only [hp, savePort_snd]

/-- A line not matching the interface-name pattern never emits a record. -/
theorem processLine_fst_none (ctx : Ctx) (s : ScanState) (raw : String)
    (hp : portSearch (stripChars raw.data) = none) :
    (processLine ctx s raw).1 = none := by
  unfold processLine
  simp only [hp]

/-- The fall-through tail preserves the range invariant of both powers. -/
theorem keyValueStep_powOk (vendor : String) (s : ScanState) (line : Chars)
    (htx : powOk s.tx_power) (hrx : powOk s.rx_power) :
    powOk (keyValueStep vendor s line).tx_power ∧
    powOk (keyValueStep vendor s line).rx_power := by
  unfold keyValueStep
  refine ⟨?_, ?_⟩
  · exact powOk_ite
      (powOk_applyCandidate
        (powOk_ite (powOk_applyCandidate (powOk_applyCandidate htx _) _)
          (powOk_applyCandidate htx _)) _)
      (powOk_ite (powOk_applyCandidate (powOk_applyCandidate htx _) _)
        (powOk_applyCandidate htx _))
  · exact powOk_ite
      (powOk_applyCandidate
        (powOk_ite (powOk_applyCandidate (powOk_applyCandidate hrx _) _)
          (powOk_applyCandidate hrx _)) _)
      (powOk_ite (powOk_applyCandidate (powOk_applyCandidate hrx _) _)
        (powOk_applyCandidate hrx _))

/-- The non-interface branches preserve the range invariant of both powers. -/
theorem nonPortStep_powOk (vendor : String) (s : ScanState) (line : Chars)
    (htx : powOk s.tx_power) (hrx : powOk s.rx_power) :
    powOk (nonPortStep vendor s line).tx_power ∧
    powOk (nonPortStep vendor s line).rx_power := by
  unfold nonPortStep
  split_ifs with h1 h2 h3 h4 h5 h6 h7 h8 h9
  all_goals try dsimp only
  all_goals try exact ⟨htx, hrx⟩
  all_goals try exact ⟨powOk_applyCandidate htx _, powOk_applyCandidate hrx _⟩
  all_goals try exact keyValueStep_powOk vendor s line htx hrx
  all_goals split <;> exact ⟨htx, hrx⟩

/-- One loop iteration preserves the range invariant of the state's powers. -/
theorem processLine_state_powOk (ctx : Ctx) (s : ScanState) (raw : String)
    (htx : powOk s.tx_power) (hrx : powOk s.rx_power) :
    powOk (processLine ctx s raw).2.tx_power ∧ powOk (processLine ctx s raw).2.rx_power := by
  cases hp : portSearch (stripChars raw.data) with
  | some p =>
    rw [processLine_port_eq ctx s raw p hp]
    exact ⟨powOk_none, powOk_none⟩
  | none =>
    unfold processLine
    simp only [hp]
    exact nonPortStep_powOk ctx.vendor
      { s with command_type := updateCommandType ctx.vendor s.command_type (stripChars raw.data) }
      (stripChars raw.data) htx hrx

/-- A record emitted by one loop iteration inherits the context's powers,
hence their range invariant. -/
theorem processLine_rec_powOk (ctx : Ctx) (s : ScanState) (raw : String)
    (htx : powOk s.tx_power) (hrx : powOk s.rx_power) :
    ∀ r, (processLine ctx s raw).1 = some r → powOk r.tx_power ∧ powOk r.rx_power := by
  intro r h
  cases hp : portSearch (stripChars raw.data) with
  | some p =>
    rw [processLine_port_eq ctx s raw p hp] at h
    have hf := savePort_rec_fields _ _ r h
    exact ⟨by rw [hf.2.1]; exact htx, by rw [hf.2.2.1]; exact hrx⟩
  | none =>
    rw [processLine_fst_none ctx s raw hp] at h
    cases h

/-- The per-line loop preserves the range invariant and every record it
collects satisfies it. -/
theorem runLines_powOk (ctx : Ctx) (ls : List String) :
    ∀ s : ScanState, powOk s.tx_power → powOk s.rx_power →
      (∀ r ∈ (runLines ctx s ls).1, powOk r.tx_power ∧ powOk r.rx_power) ∧
      powOk (runLines ctx s ls).2.tx_power ∧ powOk (runLines ctx s ls).2.rx_power := by
  induction ls with
  | nil =>
    intro s htx hrx
    refine ⟨?_, htx, hrx⟩
    intro r hr
    cases hr
  | cons l ls ih =>
    intro s htx hrx
    have hstate := processLine_state_powOk ctx s l htx hrx
    have ihr := ih (processLine ctx s l).2 hstate.1 hstate.2
    have hrw : runLines ctx s (l :: ls) =
        ((processLine ctx s l).1.toList ++ (runLines ctx (processLine ctx s l).2 ls).1,
          (runLines ctx (processLine ctx s l).2 ls).2) := rfl
    rw [hrw]
    refine ⟨?_, ihr.2⟩
    intro r hr
    simp only [List.mem_append] at hr
    rcases hr with hr | hr
    · cases hfst : (processLine ctx s l).1 with
      | none => rw [hfst] at hr; cases hr
      | some r0 =>
        rw [hfst] at hr
        simp only [Option.toList_some, List.mem_singleton] at hr
        subst hr
        exact processLine_rec_powOk ctx s l htx hrx r hfst
    · exact ihr.1 r hr

/-- A line consumed by one of the four status-marker branches emits nothing,
keeps both powers and the current port, and clears is_optical_port. -/
theorem processLine_marker (ctx : Ctx) (s : ScanState) (raw : String)
    (hport : portSearch (stripChars raw.data) = none)
    (hmk : nonOpticalSearch (stripChars raw.data) = true ∨
           absentSearch (stripChars raw.data) = true ∨
           notSupportSearch (stripChars raw.data) = true ∨
           (s.current_port.isSome = true ∧ copperSearch (stripChars raw.data) = true)) :
    (processLine ctx s raw).1 = none ∧
    (processLine ctx s raw).2.tx_power = s.tx_power ∧
    (processLine ctx s raw).2.rx_power = s.rx_power ∧
    (processLine ctx s raw).2.is_optical_port = false ∧
    (processLine ctx s raw).2.current_port = s.current_port := by
  by_cases h1 : nonOpticalSearch (stripChars raw.data) = true
  · simp [processLine, nonPortStep, hport, h1]
  by_cases h2 : absentSearch (stripChars raw.data) = true
  · simp [processLine, nonPortStep, hport, h1, h2]
  by_cases h3 : notSupportSearch (stripChars raw.data) = true
  · simp [processLine, nonPortStep, hport, h1, h2, h3]
  rcases hmk with h | h | h | ⟨hcp, hco⟩
  · exact absurd h h1
  · exact absurd h h2
  · exact absurd h h3
  · simp [processLine, nonPortStep, hport, h1, h2, h3, hcp, hco]

/-- A line processed while the context is non-optical and not matching the
interface-name pattern emits nothing, keeps both powers and keeps the
context non-optical (the markers and the skip are the only reachable
branches). -/
theorem processLine_skip (ctx : Ctx) (s : ScanState) (raw : String)
    (hopt : s.is_optical_port = false)
    (hport : portSearch (stripChars raw.data) = none) :
    (processLine ctx s raw).1 = none ∧
    (processLine ctx s raw).2.tx_power = s.tx_power ∧
    (processLine ctx s raw).2.rx_power = s.rx_power ∧
    (processLine ctx s raw).2.is_optical_port = false := by
  by_cases h1 : nonOpticalSearch (stripChars raw.data) = true
  · simp [processLine, nonPortStep, hport, h1]
  by_cases h2 : absentSearch (stripChars raw.data) = true
  · simp [processLine, nonPortStep, hport, h1, h2]
  by_cases h3 : notSupportSearch (stripChars raw.data) = true
  · simp [processLine, nonPortStep, hport, h1, h2, h3]
  by_cases h4 : s.current_port.isSome = true ∧ copperSearch (stripChars raw.data) = true
  · simp [processLine, nonPortStep, hport, h1, h2, h3, h4]
  · simp [processLine, nonPortStep, hport, h1, h2, h3, h4, hopt]

/-! ## Claim theorems. -/

/-- C3: the flush emits a record iff the port context carries information:
current_port is a non-empty string and at least one of tx set, rx set,
status different from unknown holds; an uninformative context yields no
record at all. -/
theorem c3_emission_iff (ctx : Ctx) (s : ScanState) :
    (savePort ctx s).1.isSome ↔
      ((∃ p, s.current_port = some p ∧ p ≠ "") ∧
        (s.tx_power ≠ none ∨ s.rx_power ≠ none ∨ s.status ≠ "unknown")) :=
  savePort_isSome_iff ctx s

/-- C3 witness: a context holding port and tx power emits. -/
theorem c3_emission_iff_witness :
    (savePort { vendor := "Huawei", networkType := "内网", device := "SW1", logFileName := "a.log" }
      { current_port := some "Ge1/0/1", tx_power := some (-5), rx_power := none,
        status := "unknown", is_optical_port := true, command_type := "unknown",
        table_header_found := false, rx_power_col_idx := none, tx_power_col_idx := none,
        parsing_power_data := false }).1.isSome :=
  (c3_emission_iff _ _).mpr ⟨⟨"Ge1/0/1", rfl, by decide⟩, Or.inl (by decide)⟩

/-- C1: a line matching the interface-name pattern always flushes the
previous port context before opening the new one: any record it emits takes
its port, powers and status from the previous context (so no record mixes
two ports and no power value crosses a port boundary), a record is emitted
exactly when the previous context satisfies the emission invariant, and the
new context starts from defaults -- the named port, optical, status unknown,
both powers absent and the table state cleared. -/
theorem c1_interface_line_flushes (ctx : Ctx) (s : ScanState) (raw : String) (p : String)
    (hp : portSearch (stripChars raw.data) = some p) :
    (∀ r, (processLine ctx s raw).1 = some r →
       s.current_port = some r.port ∧ r.tx_power = s.tx_power ∧
       r.rx_power = s.rx_power ∧ r.status = s.status) ∧
    ((processLine ctx s raw).1.isSome ↔
       ((∃ q, s.current_port = some q ∧ q ≠ "") ∧
         (s.tx_power ≠ none ∨ s.rx_power ≠ none ∨ s.status ≠ "unknown"))) ∧
    ((processLine ctx s raw).2.current_port = some p ∧
     (processLine ctx s raw).2.tx_power = none ∧
     (processLine ctx s raw).2.rx_power = none ∧
     (processLine ctx s raw).2.status = "unknown" ∧
     (processLine ctx s raw).2.is_optical_port = true ∧
     (processLine ctx s raw).2.table_header_found = false ∧
     (processLine ctx s raw).2.rx_power_col_idx = none ∧
     (processLine ctx s raw).2.tx_power_col_idx = none) := by
  have hred : processLine ctx s raw =
      ((savePort ctx { s with command_type := updateCommandType ctx.vendor s.command_type (stripChars raw.data) }).1,
        { initState with current_port := some p, is_optical_port := true, status := "unknown" }) := by
    unfold processLine
    simp only [hp, savePort_snd]
  rw [hred]
  refine ⟨?_, ?_, rfl, rfl, rfl, rfl, rfl, rfl, rfl, rfl⟩
  · intro r h
    have hf := savePort_rec_fields _ _ r h
    exact ⟨hf.1, hf.2.1, hf.2.2.1, hf.2.2.2.1⟩
  · exact savePort_isSome_iff _ _

/-- C1 witness: a context holding port Ge1/0/1 with an rx reading, hit by a
line naming port Ge1/0/2, emits a record and resets to a fresh context for
Ge1/0/2 with both powers absent. -/
theorem c1_interface_line_flushes_witness :
    (processLine
      { vendor := "Huawei", networkType := "内网", device := "SW1", logFileName := "a.log" }
      { current_port := some "Ge1/0/1", tx_power := none, rx_power := some (mkRat (-3) 1),
        status := "unknown", is_optical_port := true, command_type := "unknown",
        table_header_found := false, rx_power_col_idx := none, tx_power_col_idx := none,
        parsing_power_data := false }
      "Ge1/0/2").2.current_port = some "Ge1/0/2" ∧
    (processLine
      { vendor := "Huawei", networkType := "内网", device := "SW1", logFileName := "a.log" }
      { current_port := some "Ge1/0/1", tx_power := none, rx_power := some (mkRat (-3) 1),
        status := "unknown", is_optical_port := true, command_type := "unknown",
        table_header_found := false, rx_power_col_idx := none, tx_power_col_idx := none,
        parsing_power_data := false }
      "Ge1/0/2").2.rx_power = none ∧
    (processLine
      { vendor := "Huawei", networkType := "内网", device := "SW1", logFileName := "a.log" }
      { current_port := some "Ge1/0/1", tx_power := none, rx_power := some (mkRat (-3) 1),
        status := "unknown", is_optical_port := true, command_type := "unknown",
        table_header_found := false, rx_power_col_idx := none, tx_power_col_idx := none,
        parsing_power_data := false }
      "Ge1/0/2").1.isSome := by
  have h := c1_interface_line_flushes
    { vendor := "Huawei", networkType := "内网", device := "SW1", logFileName := "a.log" }
    { current_port := some "Ge1/0/1", tx_power := none, rx_power := some (mkRat (-3) 1),
      status := "unknown", is_optical_port := true, command_type := "unknown",
      table_header_found := false, rx_power_col_idx := none, tx_power_col_idx := none,
      parsing_power_data := false }
    "Ge1/0/2" "Ge1/0/2" (by decide)
  exact ⟨h.2.2.1, h.2.2.2.2.1,
    h.2.1.mpr ⟨⟨"Ge1/0/1", rfl, by decide⟩, Or.inr (Or.inl (by decide))⟩⟩

/-- C2: every PortRecord produced from a segment has tx_power and rx_power
inside [-50, 10] whenever present, and the Value Validator discards any
out-of-range candidate silently, leaving the field unchanged (typically
absent); by definition of the scanner every assignment site -- the
multi-column table row, the direct key-value shapes, the H3C shapes and the
fallback shape -- funnels through applyCandidate. -/
theorem c2_power_range :
    (∀ (ctx : Ctx) (segment : List String), ∀ r ∈ processSegment ctx segment,
      (∀ v, r.tx_power = some v → -50 ≤ v ∧ v ≤ 10) ∧
      (∀ v, r.rx_power = some v → -50 ≤ v ∧ v ≤ 10)) ∧
    (∀ (prev : Option Rat) (v : Rat), ¬(-50 ≤ v ∧ v ≤ 10) →
      applyCandidate prev (some v) = prev) := by
  constructor
  · intro ctx segment r hr
    unfold processSegment at hr
    simp only [List.mem_append] at hr
    have hrun := runLines_powOk ctx segment initState powOk_none powOk_none
    rcases hr with hr | hr
    · exact hrun.1 r hr
    · cases hfst : (savePort ctx (runLines ctx initState segment).2).1 with
      | none => rw [hfst] at hr; cases hr
      | some r0 =>
        rw [hfst] at hr
        simp only [Option.toList_some, List.mem_singleton] at hr
        subst hr
        have hf := savePort_rec_fields _ _ r hfst
        exact ⟨by rw [hf.2.1]; exact hrun.2.1, by rw [hf.2.2.1]; exact hrun.2.2⟩
  · intro prev v h
    simp [applyCandidate, h]

/-- C2 witness: the record emitted for a segment with an in-range tx reading
satisfies the bound, and an out-of-range candidate (15 dBm) is discarded
leaving the previous value in place. -/
theorem c2_power_range_witness :
    ((-50 : Rat) ≤ -5 ∧ (-5 : Rat) ≤ 10) ∧
    applyCandidate (some 1) (some 15) = some 1 := by
  constructor
  · exact (c2_power_range.1
      { vendor := "Huawei", networkType := "内网", device := "SW1", logFileName := "a.log" }
      ["Ge1/0/1", "TX Power : -5.00"]
      { vendor := "Huawei", networkType := "内网", device := "SW1", port := "Ge1/0/1",
        tx_power := some (-5), rx_power := none, status := "unknown",
        command_type := "unknown", logFileName := "a.log" } (by decide)).1 (-5) (by decide)
  · exact c2_power_range.2 (some 1) 15 (by decide)

/-- C4: once a port context is non-optical (after a non-optical, absent,
not-supported or copper marker cleared is_optical), every following line up
to the next interface-name line leaves tx_power and rx_power unchanged and
emits nothing, even if a line matches a power-value shape; the context also
stays non-optical, so the property persists across the whole block. -/
theorem c4_non_optical_block (ctx : Ctx) (s : ScanState) (ls : List String)
    (hopt : s.is_optical_port = false)
    (hnp : ∀ l ∈ ls, portSearch (stripChars l.data) = none) :
    (runLines ctx s ls).1 = [] ∧
    (runLines ctx s ls).2.tx_power = s.tx_power ∧
    (runLines ctx s ls).2.rx_power = s.rx_power ∧
    (runLines ctx s ls).2.is_optical_port = false := by
  induction ls generalizing s with
  | nil => exact ⟨rfl, rfl, rfl, hopt⟩
  | cons l ls ih =>
    have hl := processLine_skip ctx s l hopt (hnp l (by simp))
    have ihr := ih (processLine ctx s l).2 hl.2.2.2 (fun x hx => hnp x (by simp [hx]))
    have hrw : runLines ctx s (l :: ls) =
        ((processLine ctx s l).1.toList ++ (runLines ctx (processLine ctx s l).2 ls).1,
          (runLines ctx (processLine ctx s l).2 ls).2) := rfl
    rw [hrw]
    refine ⟨?_, ?_, ?_, ihr.2.2.2⟩
    · simp [hl.1, ihr.1]
    · rw [ihr.2.1, hl.2.1]
    · rw [ihr.2.2.1, hl.2.2.1]

/-- C4 witness: a context marked absent ignores later power-shaped and
status lines until the next interface-name line. -/
theorem c4_non_optical_block_witness :
    (runLines { vendor := "Huawei", networkType := "内网", device := "SW1", logFileName := "a.log" }
      { current_port := some "Ge1/0/1", tx_power := none, rx_power := none,
        status := "absent(无模块)", is_optical_port := false, command_type := "unknown",
        table_header_found := false, rx_power_col_idx := none, tx_power_col_idx := none,
        parsing_power_data := false }
      ["TX Power : -5.00", "status normal"]).1 = [] ∧
    (runLines { vendor := "Huawei", networkType := "内网", device := "SW1", logFileName := "a.log" }
      { current_port := some "Ge1/0/1", tx_power := none, rx_power := none,
        status := "absent(无模块)", is_optical_port := false, command_type := "unknown",
        table_header_found := false, rx_power_col_idx := none, tx_power_col_idx := none,
        parsing_power_data := false }
      ["TX Power : -5.00", "status normal"]).2.tx_power = none := by
  have h := c4_non_optical_block
    { vendor := "Huawei", networkType := "内网", device := "SW1", logFileName := "a.log" }
    { current_port := some "Ge1/0/1", tx_power := none, rx_power := none,
      status := "absent(无模块)", is_optical_port := false, command_type := "unknown",
      table_header_found := false, rx_power_col_idx := none, tx_power_col_idx := none,
      parsing_power_data := false }
    ["TX Power : -5.00", "status normal"] rfl (by decide)
  exact ⟨h.1, h.2.1⟩

/-- C10: the four status-marker lines set status and clear is_optical but
never clear tx_power or rx_power, so a flushed record can carry a
not-applicable status together with concrete power values: a segment that
reads an rx power and then marks the port copper emits one record with both
the copper status and the rx value. -/
theorem c10_markers_keep_powers :
    (∀ (ctx : Ctx) (s : ScanState) (raw : String),
      portSearch (stripChars raw.data) = none →
      (nonOpticalSearch (stripChars raw.data) = true ∨
       absentSearch (stripChars raw.data) = true ∨
       notSupportSearch (stripChars raw.data) = true ∨
       (s.current_port.isSome = true ∧ copperSearch (stripChars raw.data) = true)) →
      (processLine ctx s raw).1 = none ∧
      (processLine ctx s raw).2.tx_power = s.tx_power ∧
      (processLine ctx s raw).2.rx_power = s.rx_power ∧
      (processLine ctx s raw).2.is_optical_port = false) ∧
    processSegment
      { vendor := "Huawei", networkType := "内网", device := "SW4", logFileName := "d.log" }
      ["Ge1/0/9", "RX Power : -3.00", "Transfer Distance(m)  : 100(copper)"] =
    [{ vendor := "Huawei", networkType := "内网", device := "SW4", port := "Ge1/0/9",
       tx_power := none, rx_power := some (-3), status := "copper_port(电口)",
       command_type := "unknown", logFileName := "d.log" }] := by
  constructor
  · intro ctx s raw hport hmk
    have h := processLine_marker ctx s raw hport hmk
    exact ⟨h.1, h.2.1, h.2.2.1, h.2.2.2.1⟩
  · decide

/-- C10 witness: a copper marker line on a context that already holds an rx
reading keeps that reading and clears is_optical. -/
theorem c10_markers_keep_powers_witness :
    (processLine { vendor := "Huawei", networkType := "内网", device := "SW4", logFileName := "d.log" }
      { current_port := some "Ge1/0/9", tx_power := none, rx_power := some (-3),
        status := "unknown", is_optical_port := true, command_type := "unknown",
        table_header_found := false, rx_power_col_idx := none, tx_power_col_idx := none,
        parsing_power_data := false }
      "Transfer Distance(m)  : 100(copper)").2.rx_power = some (-3) ∧
    (processLine { vendor := "Huawei", networkType := "内网", device := "SW4", logFileName := "d.log" }
      { current_port := some "Ge1/0/9", tx_power := none, rx_power := some (-3),
        status := "unknown", is_optical_port := true, command_type := "unknown",
        table_header_found := false, rx_power_col_idx := none, tx_power_col_idx := none,
        parsing_power_data := false }
      "Transfer Distance(m)  : 100(copper)").2.is_optical_port = false := by
  have h := c10_markers_keep_powers.1
    { vendor := "Huawei", networkType := "内网", device := "SW4", logFileName := "d.log" }
    { current_port := some "Ge1/0/9", tx_power := none, rx_power := some (-3),
      status := "unknown", is_optical_port := true, command_type := "unknown",
      table_header_found := false, rx_power_col_idx := none, tx_power_col_idx := none,
      parsing_power_data := false }
    "Transfer Distance(m)  : 100(copper)" (by decide) (Or.inr (Or.inr (Or.inr ⟨rfl, by decide⟩)))
  exact ⟨h.2.2.1, h.2.2.2⟩

/-- C5, code-bug evidence: a segment opened by a command-type marker line
(display transceiver verbose, tag huawei_verb) still emits its record with
command_type unknown, because save_port resets command_type at every flush,
including the no-emission flush performed when the first interface-name line
opens its port.  The claim says the record emitted after the marker carries
the marker's tag. -/
theorem c5_command_tag_lost :
    processSegment
      { vendor := "Huawei", networkType := "内网", device := "SW1", logFileName := "a.log" }
      ["display transceiver verbose", "GigabitEthernet1/0/1", "TX Power : -5.00"] =
    [{ vendor := "Huawei", networkType := "内网", device := "SW1",
       port := "GigabitEthernet1/0/1", tx_power := some (-5), rx_power := none,
       status := "unknown", command_type := "unknown", logFileName := "a.log" }] := by
  decide

/-- C6 counterexample: a key-value power line classified after an Alarm
thresholds marker line (with no diagnostic marker or interface-name line in
between) still sets rx_power; the claim says no line in the alarm-thresholds
region is ever taken as a current power reading. -/
theorem c6_counterexample :
    processSegment
      { vendor := "H3C", networkType := "外网", device := "SW2", logFileName := "b.log" }
      ["Ge1/0/5", "Alarm thresholds:", "RX Power : -7.50"] =
    [{ vendor := "H3C", networkType := "外网", device := "SW2", port := "Ge1/0/5",
       tx_power := none, rx_power := some (mkRat (-15) 2), status := "unknown",
       command_type := "unknown", logFileName := "b.log" }] := by
  decide

/-- C6 amended: an Alarm thresholds marker line only clears
table_header_found and the never-read diagnostic-block flag, so a pending
table data row is not consumed; it emits nothing and leaves powers and
status untouched.  It does not exclude the region that follows from the
key-value, H3C or fallback power shapes, which still assign (see the
counterexample). -/
theorem c6_alarm_marker_effect (ctx : Ctx) (s : ScanState) (raw : String)
    (hv : ctx.vendor = "H3C" ∨ ctx.vendor = "Huawei")
    (hopt : s.is_optical_port = true)
    (hport : portSearch (stripChars raw.data) = none)
    (h1 : nonOpticalSearch (stripChars raw.data) = false)
    (h2 : absentSearch (stripChars raw.data) = false)
    (h3 : notSupportSearch (stripChars raw.data) = false)
    (h4 : copperSearch (stripChars raw.data) = false)
    (h5 : currentDiagMatch (stripChars raw.data) = false)
    (h6 : alarmMatch (stripChars raw.data) = true) :
    (processLine ctx s raw).1 = none ∧
    (processLine ctx s raw).2.table_header_found = false ∧
    (processLine ctx s raw).2.parsing_power_data = false ∧
    (processLine ctx s raw).2.tx_power = s.tx_power ∧
    (processLine ctx s raw).2.rx_power = s.rx_power ∧
    (processLine ctx s raw).2.status = s.status := by
  rcases hv with hv | hv <;>
    simp [processLine, nonPortStep, hport, h1, h2, h3, h4, h5, h6, hopt, hv]

/-- C6 amended witness: the marker line itself on a context with a pending
table header. -/
theorem c6_alarm_marker_effect_witness :
    (processLine { vendor := "H3C", networkType := "外网", device := "SW2", logFileName := "b.log" }
      { current_port := some "Ge1/0/5", tx_power := none, rx_power := none,
        status := "unknown", is_optical_port := true, command_type := "unknown",
        table_header_found := true, rx_power_col_idx := some 3, tx_power_col_idx := some 4,
        parsing_power_data := true }
      "Alarm thresholds:").2.table_header_found = false ∧
    (processLine { vendor := "H3C", networkType := "外网", device := "SW2", logFileName := "b.log" }
      { current_port := some "Ge1/0/5", tx_power := none, rx_power := none,
        status := "unknown", is_optical_port := true, command_type := "unknown",
        table_header_found := true, rx_power_col_idx := some 3, tx_power_col_idx := some 4,
        parsing_power_data := true }
      "Alarm thresholds:").2.rx_power = none := by
  have h := c6_alarm_marker_effect
    { vendor := "H3C", networkType := "外网", device := "SW2", logFileName := "b.log" }
    { current_port := some "Ge1/0/5", tx_power := none, rx_power := none,
      status := "unknown", is_optical_port := true, command_type := "unknown",
      table_header_found := true, rx_power_col_idx := some 3, tx_power_col_idx := some 4,
      parsing_power_data := true }
    "Alarm thresholds:" (Or.inl rfl) rfl (by decide) (by decide) (by decide) (by decide)
    (by decide) (by decide) (by decide)
  exact ⟨h.2.1, h.2.2.2.2.1⟩

/-- C7: with a pending table header, the next line that reaches the table
stage (one matching none of the higher-priority recognizers: interface name,
status markers, block markers, header shape) is consumed as the single data
row: it is split on runs of two or more whitespace characters, the values at
the recorded RX and TX column indices are validated and assigned, and
table_header_found is cleared, so a second data-shaped line without an
intervening header is never reinterpreted as table data. -/
theorem c7_single_data_row (ctx : Ctx) (s : ScanState) (raw : String)
    (hthf : s.table_header_found = true)
    (hopt : s.is_optical_port = true)
    (hport : portSearch (stripChars raw.data) = none)
    (h1 : nonOpticalSearch (stripChars raw.data) = false)
    (h2 : absentSearch (stripChars raw.data) = false)
    (h3 : notSupportSearch (stripChars raw.data) = false)
    (h4 : copperSearch (stripChars raw.data) = false)
    (h5 : currentDiagMatch (stripChars raw.data) = false)
    (h6 : alarmMatch (stripChars raw.data) = false)
    (h7 : isSubstr "Temp.".data (stripChars raw.data) = false) :
    (processLine ctx s raw).1 = none ∧
    (processLine ctx s raw).2.table_header_found = false ∧
    (processLine ctx s raw).2.rx_power =
      applyCandidate s.rx_power
        (colCandidate (split2ws (stripChars (stripChars raw.data))) s.rx_power_col_idx) ∧
    (processLine ctx s raw).2.tx_power =
      applyCandidate s.tx_power
        (colCandidate (split2ws (stripChars (stripChars raw.data))) s.tx_power_col_idx) ∧
    (processLine ctx s raw).2.status = s.status := by
  simp [processLine, nonPortStep, hport, h1, h2, h3, h4, h5, h6, h7, hopt, hthf]

/-- C7 witness: the data row following a recorded header assigns the values
at the recorded columns and clears the header flag (the spec's scenario with
a row 25  3.3  6.1  -3.20  -2.10 and RX at column 3, TX at column 4). -/
theorem c7_single_data_row_witness :
    (processLine { vendor := "Huawei", networkType := "内网", device := "SW1", logFileName := "a.log" }
      { current_port := some "XGe1/0/2", tx_power := none, rx_power := none,
        status := "unknown", is_optical_port := true, command_type := "unknown",
        table_header_found := true, rx_power_col_idx := some 3, tx_power_col_idx := some 4,
        parsing_power_data := true }
      "25  3.3  6.1  -3.20  -2.10").2.rx_power = some (mkRat (-320) 100) ∧
    (processLine { vendor := "Huawei", networkType := "内网", device := "SW1", logFileName := "a.log" }
      { current_port := some "XGe1/0/2", tx_power := none, rx_power := none,
        status := "unknown", is_optical_port := true, command_type := "unknown",
        table_header_found := true, rx_power_col_idx := some 3, tx_power_col_idx := some 4,
        parsing_power_data := true }
      "25  3.3  6.1  -3.20  -2.10").2.tx_power = some (mkRat (-210) 100) ∧
    (processLine { vendor := "Huawei", networkType := "内网", device := "SW1", logFileName := "a.log" }
      { current_port := some "XGe1/0/2", tx_power := none, rx_power := none,
        status := "unknown", is_optical_port := true, command_type := "unknown",
        table_header_found := true, rx_power_col_idx := some 3, tx_power_col_idx := some 4,
        parsing_power_data := true }
      "25  3.3  6.1  -3.20  -2.10").2.table_header_found = false := by
  have h := c7_single_data_row
    { vendor := "Huawei", networkType := "内网", device := "SW1", logFileName := "a.log" }
    { current_port := some "XGe1/0/2", tx_power := none, rx_power := none,
      status := "unknown", is_optical_port := true, command_type := "unknown",
      table_header_found := true, rx_power_col_idx := some 3, tx_power_col_idx := some 4,
      parsing_power_data := true }
    "25  3.3  6.1  -3.20  -2.10" rfl rfl (by decide) (by decide) (by decide) (by decide)
    (by decide) (by decide) (by decide) (by decide)
  refine ⟨h.2.2.1.trans (by decide), h.2.2.2.1.trans (by decide), h.2.1⟩

/-- C8 counterexample: a bare status normal token classified after the port
was marked absent does not overwrite the status — the non-optical skip
consumes the line before the status rule — so the record keeps the absent
status, while the claim predicts status normal. -/
theorem c8_counterexample :
    processSegment
      { vendor := "Huawei", networkType := "内网", device := "SW3", logFileName := "c.log" }
      ["Ge1/0/7", "The transceiver is absent.", "status normal"] =
    [{ vendor := "Huawei", networkType := "内网", device := "SW3", port := "Ge1/0/7",
       tx_power := none, rx_power := none, status := "absent(无模块)",
       command_type := "unknown", logFileName := "c.log" }] := by
  decide

/-- C8 amended: while the context is optical, a bare status normal or
abnormal token that reaches the status rule overwrites status regardless of
its prior value (unknown, normal or abnormal); a context in a
not-applicable state is non-optical, and its lines are skipped before the
status rule, so such a status is never overwritten there (see the
counterexample). -/
theorem c8_status_overwrite (ctx : Ctx) (s : ScanState) (raw : String) (cap : Chars)
    (hopt : s.is_optical_port = true)
    (hthf : s.table_header_found = false)
    (hport : portSearch (stripChars raw.data) = none)
    (h1 : nonOpticalSearch (stripChars raw.data) = false)
    (h2 : absentSearch (stripChars raw.data) = false)
    (h3 : notSupportSearch (stripChars raw.data) = false)
    (h4 : copperSearch (stripChars raw.data) = false)
    (h5 : currentDiagMatch (stripChars raw.data) = false)
    (h6 : alarmMatch (stripChars raw.data) = false)
    (h7 : isSubstr "Temp.".data (stripChars raw.data) = false)
    (hst : statusSearch (stripChars raw.data) = some cap) :
    (processLine ctx s raw).1 = none ∧
    (processLine ctx s raw).2.status = String.mk cap := by
  simp [processLine, nonPortStep, keyValueStep, hport, h1, h2, h3, h4, h5, h6, h7, hopt, hthf, hst]

/-- C8 amended witness: a status abnormal token overwrites a prior normal
status in an optical context. -/
theorem c8_status_overwrite_witness :
    (processLine { vendor := "Huawei", networkType := "内网", device := "SW3", logFileName := "c.log" }
      { current_port := some "Ge1/0/7", tx_power := none, rx_power := none,
        status := "normal", is_optical_port := true, command_type := "unknown",
        table_header_found := false, rx_power_col_idx := none, tx_power_col_idx := none,
        parsing_power_data := false }
      "status abnormal").2.status = "abnormal" := by
  have h := c8_status_overwrite
    { vendor := "Huawei", networkType := "内网", device := "SW3", logFileName := "c.log" }
    { current_port := some "Ge1/0/7", tx_power := none, rx_power := none,
      status := "normal", is_optical_port := true, command_type := "unknown",
      table_header_found := false, rx_power_col_idx := none, tx_power_col_idx := none,
      parsing_power_data := false }
    "status abnormal" "abnormal".data rfl rfl (by decide) (by decide) (by decide)
    (by decide) (by decide) (by decide) (by decide) (by decide) (by decide)
  exact h.2

/-- C9: the device-identity cascade of the optical-power path never fails:
a text with only a System Name field resolves to that name; a bracket or
angle-bracket prompt token wins over every later step; a Device Name field
wins over a System Name field; and with no match at all the file's base name
is returned. -/
theorem c9_device_identity :
    resolveDevice "logs/dev1.log" ["System Name: SW-CORE-01"] = "SW-CORE-01" ∧
    resolveDevice "logs/dev1.log" ["<SW-A> some text", "System Name: SW-CORE-01"] = "SW-A" ∧
    resolveDevice "logs/dev1.log" ["Device Name: DN-9", "System Name: SW-CORE-01"] = "DN-9" ∧
    resolveDevice "logs/dev1.log" ["no names at all"] = "dev1.log" := by
  decide

end LogProcessor
